import Mathlib

/-!
Verification of the Aura Tauri backend (src/src-tauri/src/lib.rs).

The file gives a shallow embedding of the IPC/supervision core of the
backend: the sidecar command writer, the pending-break handoff store,
the stdout event loop with its per-event-type routing, the termination
and restart policy, and the command JSON constructors. Side effects
performed against the windowing system and the frontend are recorded as
an explicit trace of actions.
-/

/-- Model of a serde_json value. Numbers are restricted to integers,
which covers every value this backend constructs or routes. -/
inductive Json where
  | null
  | bool (b : Bool)
  | num (n : Int)
  | str (s : String)
  | arr (elems : List Json)
  | obj (fields : List (String × Json))

/-- Field lookup in a JSON object, first match wins (models indexing a
serde_json object by key). -/
def lookupField : List (String × Json) → String → Option Json
  | [], _ => none
  | (k, v) :: rest, key => if k = key then some v else lookupField rest key

/-- Lookup of a key in a JSON value; none when the value is not an object. -/
def jsonLookup : Json → String → Option Json
  | Json.obj fields, key => lookupField fields key
  | _, _ => none

/-- Lowercase hexadecimal digit, as used by the serde_json escape table. -/
def hexLowerDigit (n : Nat) : Char :=
  if n < 10 then Char.ofNat (48 + n) else Char.ofNat (87 + n)

/-- Escape of a single character inside a JSON string, following the
serde_json short-escape table with \u00XX for remaining controls. -/
def escapeJsonChar (c : Char) : String :=
  if c = '"' then "\\\""
  else if c = '\\' then "\\\\"
  else if c = '\x08' then "\\b"
  else if c = '\x0c' then "\\f"
  else if c = '\n' then "\\n"
  else if c = '\r' then "\\r"
  else if c = '\t' then "\\t"
  else if c.toNat < 32 then
    "\\u00" ++ String.singleton (hexLowerDigit (c.toNat / 16)) ++
      String.singleton (hexLowerDigit (c.toNat % 16))
  else String.singleton c

/-- Serialization of a JSON string literal with quotes and escapes. -/
def serializeString (s : String) : String :=
  "\"" ++ String.join (s.data.map escapeJsonChar) ++ "\""

mutual

/-- Compact JSON serialization, modelling serde_json to_string. -/
def serializeJson : Json → String
  | Json.null => "null"
  | Json.bool b => if b then "true" else "false"
  | Json.num n => toString n
  | Json.str s => serializeString s
  | Json.arr elems => "[" ++ serializeElems elems ++ "]"
  | Json.obj fields => "\x7b" ++ serializeFields fields ++ "\x7d"

/-- Comma-separated serialization of array elements. -/
def serializeElems : List Json → String
  | [] => ""
  | [x] => serializeJson x
  | x :: y :: rest => serializeJson x ++ "," ++ serializeElems (y :: rest)

/-- Comma-separated serialization of object fields. -/
def serializeFields : List (String × Json) → String
  | [] => ""
  | [(k, v)] => serializeString k ++ ":" ++ serializeJson v
  | (k, v) :: f :: rest =>
    serializeString k ++ ":" ++ serializeJson v ++ "," ++ serializeFields (f :: rest)

end

/-- Model of tauri_plugin_shell CommandChild as seen by this backend:
the only capability used is writing byte strings to the worker stdin,
recorded here as the list of written chunks in order. -/
structure CommandChild where
  stdinWrites : List String

/-- Model of struct SidecarState (lib.rs lines 19-22): the running flag
and the optional child handle. Mutex wrappers are elided; lock
acquisition always succeeds in this sequential model. -/
structure SidecarState where
  is_running : Bool
  child : Option CommandChild

/-- Model of struct SidecarEvent (lib.rs lines 30-35): the decoded
form of a worker stdout line. A JSON null data field deserializes to
none, exactly as serde maps null to Option None. -/
structure SidecarEvent where
  event_type : String
  data : Option Json

/-- Model of send_to_sidecar (lib.rs lines 39-51): with a child handle
present, the command is serialized, a newline appended and the bytes
written to the child stdin; otherwise the not-running error is
returned and nothing is written. -/
def send_to_sidecar (st : SidecarState) (command : Json) :
    SidecarState × Except String Unit :=
  match st.child with
  | some child =>
    let cmd_str := serializeJson command
    ({ st with child := some { stdinWrites := child.stdinWrites ++ [cmd_str ++ "\n"] } },
      Except.ok ())
  | none => (st, Except.error "Sidecar not running")

/-- Command built by pause_reminders (lib.rs lines 180-186): a missing
minutes value serializes as an explicit JSON null, matching how the
json macro maps Option None. -/
def pause_reminders_cmd (minutes : Option Int) : Json :=
  Json.obj [("cmd", Json.str "pause"),
            ("minutes", match minutes with
              | some m => Json.num m
              | none => Json.null)]

/-- Command built by add_schedule_rule (lib.rs lines 278-287): a
missing title becomes the default empty string via unwrap_or_default. -/
def add_schedule_rule_cmd (time action : String) (days : List String)
    (title : Option String) : Json :=
  Json.obj [("cmd", Json.str "add_schedule_rule"),
            ("time", Json.str time),
            ("action", Json.str action),
            ("days", Json.arr (days.map Json.str)),
            ("title", Json.str (title.getD ""))]

/-- Staging of a payload into PendingBreakState (lib.rs line 141 in
trigger_test_break and line 493 in the event loop): plain overwrite of
the single slot, last write wins. -/
def set_pending_break (d : Json) : Option Json → Option Json :=
  fun _ => some d

/-- Model of get_pending_break (lib.rs lines 164-169): returns a clone
of the slot and leaves the stored state untouched; the pair is
(returned value, state after the call). -/
def get_pending_break (slot : Option Json) : Option Json × Option Json :=
  (slot, slot)

/-- Model of clear_pending_break (lib.rs lines 172-176): resets the
slot to None. -/
def clear_pending_break : Option Json → Option Json :=
  fun _ => none

/-- Deferred units of work spawned by the event loop: the delayed
show-break push, the delayed show-schedule-warning push, and the
sidecar restart. Each is scheduled with a fixed delay and runs against
the environment present at fire time. -/
inductive DelayedTask where
  | breakPush (data : Option Json)
  | warningPush (data : Option Json)
  | restart

/-- Observable side effects of the backend, recorded in program order.
Log actions keep the static text of the corresponding println or
eprintln; dynamic payload text is not modelled. -/
inductive Effect where
  | log (msg : String)
  | logErr (msg : String)
  | stagePending (data : Json)
  | showWindow (window : String)
  | hideWindow (window : String)
  | focusWindow (window : String)
  | setPosition (window : String) (x y : Int)
  | setAlwaysOnTop (window : String) (flag : Bool)
  | emitToWindow (window : String) (event : String) (payload : Json)
  | emitAll (event : String) (payload : SidecarEvent)
  | scheduleTask (delayMs : Nat) (task : DelayedTask)
  | setRunning (flag : Bool)
  | clearChild
  | invokeStartSidecar

/-- Ambient environment the event loop reads: which webview windows
exist (get_webview_window returns Some exactly for these labels), the
monitor size resolved by current_monitor or else primary_monitor, and
whether the two managed state objects resolve through try_state. -/
structure Env where
  windows : List String
  monitorSize : Option (Nat × Nat)
  pendingStateAvailable : Bool
  sidecarStateAvailable : Bool

/-- Reinterpretation of a u32 as an i32, modelling the Rust as-cast on
screen_size.width and screen_size.height (lib.rs lines 530-531). -/
def toI32 (n : Nat) : Int :=
  if n % 2 ^ 32 < 2 ^ 31 then ((n % 2 ^ 32 : Nat) : Int)
  else ((n % 2 ^ 32 : Nat) : Int) - 2 ^ 32

/-- Two-complement wrap of an integer into the i32 range, modelling
release-mode Rust i32 arithmetic. -/
def wrapI32 (z : Int) : Int :=
  (z + 2 ^ 31) % 2 ^ 32 - 2 ^ 31

/-- The x coordinate computed for the notification window:
(width as i32) - window_width - padding with window_width = 280 and
padding = 20 (lib.rs lines 525-530). -/
def notifX (w : Nat) : Int :=
  wrapI32 (wrapI32 (toI32 w - 280) - 20)

/-- The y coordinate computed for the notification window:
(height as i32) - window_height - padding with window_height = 320 and
padding = 20 (lib.rs lines 526-531). -/
def notifY (h : Nat) : Int :=
  wrapI32 (wrapI32 (toI32 h - 320) - 20)

/-- Routing applied to a decoded break_due event (lib.rs lines
487-513): stage the data into PendingBreakState when present, then
show and focus the overlay window and spawn the delayed show-break
push carrying the same data. -/
def routeBreakDue (env : Env) (data : Option Json) : List Effect :=
  Effect.log "[Aura] Break due! Showing overlay window..." ::
  (match data with
    | some d => if env.pendingStateAvailable then [Effect.stagePending d] else []
    | none => []) ++
  (if env.windows.contains "overlay" then
    [Effect.showWindow "overlay",
     Effect.focusWindow "overlay",
     Effect.scheduleTask 300 (DelayedTask.breakPush data)]
  else [])

/-- Routing applied to a decoded schedule_warning event (lib.rs lines
514-552): when the notification window exists, position it bottom
right of the resolved monitor, show it, raise it always-on-top and
spawn the delayed show-schedule-warning push. -/
def routeScheduleWarning (env : Env) (data : Option Json) : List Effect :=
  Effect.log "[Aura] Schedule warning! Showing notification window..." ::
  (if env.windows.contains "notification" then
    (match env.monitorSize with
      | some (w, h) => [Effect.setPosition "notification" (notifX w) (notifY h)]
      | none => []) ++
    [Effect.showWindow "notification",
     Effect.setAlwaysOnTop "notification" true,
     Effect.scheduleTask 800 (DelayedTask.warningPush data)]
  else [])

/-- The event-type dispatch of the loop (lib.rs lines 487-553): the
two recognized types get their routing rules, every other type gets no
special side effect. -/
def specialRouting (env : Env) (ev : SidecarEvent) : List Effect :=
  if ev.event_type = "break_due" then routeBreakDue env ev.data
  else if ev.event_type = "schedule_warning" then routeScheduleWarning env ev.data
  else []

/-- Handling of a successfully decoded stdout event (lib.rs lines
482-555): log, apply the per-type routing, then forward the whole
event to all listeners under the derived channel name. -/
def handleDecodedEvent (env : Env) (ev : SidecarEvent) : List Effect :=
  let event_name := "sidecar-" ++ ev.event_type
  Effect.log ("[Aura] Emitting event: " ++ event_name) ::
    specialRouting env ev ++ [Effect.emitAll event_name ev]

/-- Handling of one stdout line (lib.rs lines 477-560). The line is
given by its decode result: some for a line that parses as a
SidecarEvent envelope, none for a malformed line, which is logged and
dropped. -/
def handleStdoutLine (env : Env) (parsed : Option SidecarEvent) : List Effect :=
  Effect.log "[Aura] Received stdout" ::
  match parsed with
  | some ev => handleDecodedEvent env ev
  | none => [Effect.logErr "[Aura] Failed to parse JSON"]

/-- Handling of a Terminated event (lib.rs lines 569-586): log, set
the running flag to false and drop the child handle when the state
resolves, then unconditionally schedule one restart after 2 seconds. -/
def handleTerminated (env : Env) : List Effect :=
  Effect.logErr "[Sidecar] Terminated" ::
  (if env.sidecarStateAvailable then [Effect.setRunning false, Effect.clearChild] else []) ++
  [Effect.log "[Aura] Sidecar terminated, will attempt restart in 2 seconds...",
   Effect.scheduleTask 2000 DelayedTask.restart]

/-- The stream items consumed by the event loop, mirroring the
CommandEvent variants the source matches on. A stdout line carries its
decode result. -/
inductive CommandEvent where
  | stdout (parsed : Option SidecarEvent)
  | stderr (line : String)
  | errorEvent (err : String)
  | terminated

/-- One iteration of the event loop match (lib.rs lines 476-588). -/
def handleCommandEvent (env : Env) : CommandEvent → List Effect
  | CommandEvent.stdout parsed => handleStdoutLine env parsed
  | CommandEvent.stderr line => [Effect.logErr ("[Sidecar Error] " ++ line)]
  | CommandEvent.errorEvent err => [Effect.logErr ("[Sidecar] Error: " ++ err)]
  | CommandEvent.terminated => handleTerminated env

/-- The event loop over a finite prefix of the stream (lib.rs lines
475-589): events are consumed sequentially, in arrival order. -/
def eventLoop (env : Env) : List CommandEvent → List Effect
  | [] => []
  | e :: rest => handleCommandEvent env e ++ eventLoop env rest

/-- Behavior of a deferred unit of work when its delay elapses,
against the environment present at fire time: the break push re-gets
the overlay window and emits show-break only when both the window and
the captured data are present (lib.rs lines 505-512); the warning push
is the analogue for the notification window (lib.rs lines 543-551);
the restart logs and invokes start_sidecar (lib.rs lines 581-585). -/
def runTask (fireEnv : Env) : DelayedTask → List Effect
  | DelayedTask.breakPush data =>
    if fireEnv.windows.contains "overlay" then
      match data with
      | some d => [Effect.emitToWindow "overlay" "show-break" d]
      | none => []
    else []
  | DelayedTask.warningPush data =>
    if fireEnv.windows.contains "notification" then
      match data with
      | some d => [Effect.emitToWindow "notification" "show-schedule-warning" d]
      | none => []
    else []
  | DelayedTask.restart =>
    [Effect.log "[Aura] Attempting sidecar restart...", Effect.invokeStartSidecar]

/-- App-level state threaded through the tauri command handlers that
touch windows and the sidecar. -/
structure AppModel where
  windows : List String
  sidecar : SidecarState

/-- Result of running one tauri command handler: updated state, the
trace of window actions it performed, and its return value. -/
structure CmdOutcome where
  model : AppModel
  trace : List Effect
  result : Except String Unit

/-- The hide-overlay-first prelude shared by the three break commands:
hide the overlay when the window exists, ignoring hide errors. -/
def hideOverlayFirst (m : AppModel) : List Effect :=
  if m.windows.contains "overlay" then [Effect.hideWindow "overlay"] else []

/-- Model of complete_break (lib.rs lines 71-78): hide the overlay
first, then submit the complete_break command. -/
def complete_break (m : AppModel) : CmdOutcome :=
  let acts := hideOverlayFirst m
  let (sc, r) := send_to_sidecar m.sidecar (Json.obj [("cmd", Json.str "complete_break")])
  { model := { m with sidecar := sc }, trace := acts, result := r }

/-- Model of snooze_break (lib.rs lines 82-92): hide the overlay
first, then submit the snooze_break command with its minutes field. -/
def snooze_break (m : AppModel) (minutes : Int) : CmdOutcome :=
  let acts := hideOverlayFirst m
  let (sc, r) := send_to_sidecar m.sidecar
    (Json.obj [("cmd", Json.str "snooze_break"), ("minutes", Json.num minutes)])
  { model := { m with sidecar := sc }, trace := acts, result := r }

/-- Model of skip_break (lib.rs lines 96-103): hide the overlay first,
then submit the skip_break command. -/
def skip_break (m : AppModel) : CmdOutcome :=
  let acts := hideOverlayFirst m
  let (sc, r) := send_to_sidecar m.sidecar (Json.obj [("cmd", Json.str "skip_break")])
  { model := { m with sidecar := sc }, trace := acts, result := r }

/-- Counts the restart tasks scheduled in a trace. -/
def countRestarts (acts : List Effect) : Nat :=
  acts.countP fun a =>
    match a with
    | Effect.scheduleTask _ DelayedTask.restart => true
    | _ => false

/-- Counts the Terminated events in a stream prefix. -/
def countTerminated (evs : List CommandEvent) : Nat :=
  evs.countP fun e =>
    match e with
    | CommandEvent.terminated => true
    | _ => false

/-- The computed notification x coordinate is exact bottom-right
arithmetic for every width in the i32 range. -/
theorem notifX_eq (w : Nat) (hw : w < 2 ^ 31) : notifX w = (w : Int) - 280 - 20 := by
  unfold notifX toI32 wrapI32
  rw [Nat.mod_eq_of_lt (by omega)]
  rw [if_pos hw]
  omega

/-- The computed notification y coordinate is exact bottom-right
arithmetic for every height in the i32 range. -/
theorem notifY_eq (h : Nat) (hh : h < 2 ^ 31) : notifY h = (h : Int) - 320 - 20 := by
  unfold notifY toI32 wrapI32
  rw [Nat.mod_eq_of_lt (by omega)]
  rw [if_pos hh]
  omega

/-- Break routing schedules no restart task. -/
theorem countRestarts_route_break (env : Env) (data : Option Json) :
    countRestarts (routeBreakDue env data) = 0 := by
  unfold routeBreakDue countRestarts
  by_cases h : "overlay" ∈ env.windows <;>
    by_cases h2 : env.pendingStateAvailable = true <;>
      cases data <;> simp [h, h2]

/-- Warning routing schedules no restart task. -/
theorem countRestarts_route_warning (env : Env) (data : Option Json) :
    countRestarts (routeScheduleWarning env data) = 0 := by
  unfold routeScheduleWarning countRestarts
  by_cases h : "notification" ∈ env.windows <;>
    rcases hm : env.monitorSize with _ | ⟨w, hgt⟩ <;> simp [h, hm]

/-- Per-type routing schedules no restart task. -/
theorem countRestarts_specialRouting (env : Env) (ev : SidecarEvent) :
    countRestarts (specialRouting env ev) = 0 := by
  unfold specialRouting
  by_cases h : ev.event_type = "break_due"
  · rw [if_pos h]; exact countRestarts_route_break env ev.data
  · rw [if_neg h]
    by_cases h2 : ev.event_type = "schedule_warning"
    · rw [if_pos h2]; exact countRestarts_route_warning env ev.data
    · rw [if_neg h2]; rfl

/-- One loop iteration schedules a restart exactly for a Terminated event. -/
theorem countRestarts_handleCommandEvent (env : Env) (e : CommandEvent) :
    countRestarts (handleCommandEvent env e) = countTerminated [e] := by
  cases e with
  | stdout parsed =>
    cases parsed with
    | none => simp [handleCommandEvent, handleStdoutLine, countRestarts, countTerminated]
    | some ev =>
      have h := countRestarts_specialRouting env ev
      unfold countRestarts at h ⊢
      simp [handleCommandEvent, handleStdoutLine, handleDecodedEvent, countTerminated,
        List.countP_cons, List.countP_append, h]
  | stderr line => simp [handleCommandEvent, countRestarts, countTerminated]
  | errorEvent err => simp [handleCommandEvent, countRestarts, countTerminated]
  | terminated =>
    unfold handleCommandEvent handleTerminated countRestarts countTerminated
    by_cases h : env.sidecarStateAvailable = true <;> simp [h]

/-- Over any stream prefix, restarts scheduled equal terminations observed. -/
theorem countRestarts_eventLoop (env : Env) (evs : List CommandEvent) :
    countRestarts (eventLoop env evs) = countTerminated evs := by
  induction evs with
  | nil => rfl
  | cons e rest ih =>
    have h := countRestarts_handleCommandEvent env e
    unfold countRestarts countTerminated at h ih ⊢
    simp only [eventLoop, List.countP_append, List.countP_cons, List.countP_nil] at h ih ⊢
    omega

/-- Example environment with both routed windows present, a resolved
1920x1080 monitor and both managed states available. -/
def envEx : Env :=
  { windows := ["overlay", "notification"],
    monitorSize := some (1920, 1080),
    pendingStateAvailable := true,
    sidecarStateAvailable := true }

/-- Example break payload from the spec scenario. -/
def dEx : Json :=
  Json.obj [("break_type", Json.str "stretch"), ("duration_seconds", Json.num 30)]

/-- Example app model with the overlay window present and no running
sidecar child. -/
def mEx : AppModel :=
  { windows := ["overlay"],
    sidecar := { is_running := false, child := none } }

/-- C1: a decoded break_due line with data present first stages the
data into the pending-break store, then shows and focuses the overlay
surface, then schedules the push of a show-break event to the overlay
after a fixed 300 ms delay, carrying the same data; at fire time the
push emits that data to the overlay. -/
theorem break_due_staged_shown_then_pushed (env : Env) (d : Json) (fireEnv : Env)
    (hov : "overlay" ∈ env.windows)
    (hps : env.pendingStateAvailable = true)
    (hfov : "overlay" ∈ fireEnv.windows) :
    handleStdoutLine env (some { event_type := "break_due", data := some d }) =
      [Effect.log "[Aura] Received stdout",
       Effect.log "[Aura] Emitting event: sidecar-break_due",
       Effect.log "[Aura] Break due! Showing overlay window...",
       Effect.stagePending d,
       Effect.showWindow "overlay",
       Effect.focusWindow "overlay",
       Effect.scheduleTask 300 (DelayedTask.breakPush (some d)),
       Effect.emitAll "sidecar-break_due" { event_type := "break_due", data := some d }] ∧
    runTask fireEnv (DelayedTask.breakPush (some d)) =
      [Effect.emitToWindow "overlay" "show-break" d] := by
  constructor
  · simp [handleStdoutLine, handleDecodedEvent, specialRouting, routeBreakDue, hov, hps]
  · simp [runTask, hfov]

/-- Witness for C1 at the concrete spec scenario payload. -/
theorem break_due_staged_shown_then_pushed_witness :
    handleStdoutLine envEx (some { event_type := "break_due", data := some dEx }) =
      [Effect.log "[Aura] Received stdout",
       Effect.log "[Aura] Emitting event: sidecar-break_due",
       Effect.log "[Aura] Break due! Showing overlay window...",
       Effect.stagePending dEx,
       Effect.showWindow "overlay",
       Effect.focusWindow "overlay",
       Effect.scheduleTask 300 (DelayedTask.breakPush (some dEx)),
       Effect.emitAll "sidecar-break_due" { event_type := "break_due", data := some dEx }] ∧
    runTask envEx (DelayedTask.breakPush (some dEx)) =
      [Effect.emitToWindow "overlay" "show-break" dEx] :=
  break_due_staged_shown_then_pushed envEx dEx envEx (by decide) rfl (by decide)

/-- C2: on a Terminated stream event the loop sets the running flag to
false, drops the child handle, and schedules exactly one restart after
a fixed 2000 ms backoff; over any stream prefix the number of restarts
scheduled equals the number of Terminated events. -/
theorem terminated_restart_policy (env : Env) (evs : List CommandEvent)
    (hs : env.sidecarStateAvailable = true) :
    handleCommandEvent env CommandEvent.terminated =
      [Effect.logErr "[Sidecar] Terminated",
       Effect.setRunning false,
       Effect.clearChild,
       Effect.log "[Aura] Sidecar terminated, will attempt restart in 2 seconds...",
       Effect.scheduleTask 2000 DelayedTask.restart] ∧
    countRestarts (eventLoop env evs) = countTerminated evs := by
  constructor
  · simp [handleCommandEvent, handleTerminated, hs]
  · exact countRestarts_eventLoop env evs

/-- Witness for C2 on a stream with one termination and one malformed
line. -/
theorem terminated_restart_policy_witness :
    handleCommandEvent envEx CommandEvent.terminated =
      [Effect.logErr "[Sidecar] Terminated",
       Effect.setRunning false,
       Effect.clearChild,
       Effect.log "[Aura] Sidecar terminated, will attempt restart in 2 seconds...",
       Effect.scheduleTask 2000 DelayedTask.restart] ∧
    countRestarts (eventLoop envEx [CommandEvent.terminated, CommandEvent.stdout none]) =
      countTerminated [CommandEvent.terminated, CommandEvent.stdout none] :=
  terminated_restart_policy envEx [CommandEvent.terminated, CommandEvent.stdout none] rfl

/-- C3: submitting a command with no child handle returns the
not-running error and writes nothing; with a child handle present the
command is serialized, a newline appended and the bytes appended to
the child stdin writes. -/
theorem send_to_sidecar_spec (st : SidecarState) (command : Json) :
    (st.child = none →
      send_to_sidecar st command = (st, Except.error "Sidecar not running")) ∧
    (∀ c, st.child = some c →
      send_to_sidecar st command =
        ({ st with
            child := some { stdinWrites := c.stdinWrites ++ [serializeJson command ++ "\n"] } },
          Except.ok ())) := by
  constructor
  · intro h
    simp [send_to_sidecar, h]
  · intro c h
    simp [send_to_sidecar, h]

/-- Witness for C3: both the stopped case and the running case at a
concrete resume command and an empty write history. -/
theorem send_to_sidecar_spec_witness :
    send_to_sidecar { is_running := false, child := none }
        (Json.obj [("cmd", Json.str "resume")]) =
      ({ is_running := false, child := none }, Except.error "Sidecar not running") ∧
    send_to_sidecar { is_running := true, child := some { stdinWrites := [] } }
        (Json.obj [("cmd", Json.str "resume")]) =
      ({ is_running := true, child := some { stdinWrites := ["\x7b\"cmd\":\"resume\"\x7d\n"] } },
        Except.ok ()) := by
  constructor
  · exact (send_to_sidecar_spec { is_running := false, child := none }
      (Json.obj [("cmd", Json.str "resume")])).1 rfl
  · have h := (send_to_sidecar_spec { is_running := true, child := some { stdinWrites := [] } }
      (Json.obj [("cmd", Json.str "resume")])).2 { stdinWrites := [] } rfl
    exact h.trans (by rfl)

/-- C4: a stdout line that fails to decode produces only the receive
log and the decode-failure log, emits nothing to the frontend, and the
loop continues with the remaining stream unchanged. -/
theorem malformed_line_dropped (env : Env) (rest : List CommandEvent) :
    handleStdoutLine env none =
      [Effect.log "[Aura] Received stdout",
       Effect.logErr "[Aura] Failed to parse JSON"] ∧
    eventLoop env (CommandEvent.stdout none :: rest) =
      [Effect.log "[Aura] Received stdout",
       Effect.logErr "[Aura] Failed to parse JSON"] ++ eventLoop env rest := by
  exact ⟨rfl, by simp [eventLoop, handleCommandEvent, handleStdoutLine]⟩

/-- C5: the handoff store laws: set then get returns the payload, clear
then get returns none, two sets keep only the second, get does not
clear, and clear is idempotent. -/
theorem pending_break_store_laws (slot : Option Json) (d d2 : Json) :
    (get_pending_break (set_pending_break d slot)).1 = some d ∧
    (get_pending_break (clear_pending_break slot)).1 = none ∧
    (get_pending_break (set_pending_break d2 (set_pending_break d slot))).1 = some d2 ∧
    (get_pending_break slot).2 = slot ∧
    clear_pending_break (clear_pending_break slot) = clear_pending_break slot := by
  simp [get_pending_break, set_pending_break, clear_pending_break]

/-- C6: every successfully decoded event, whatever its type, is
forwarded to all listeners under the channel name sidecar- followed by
the event type. -/
theorem decoded_event_forwarded (env : Env) (ev : SidecarEvent) :
    Effect.emitAll ("sidecar-" ++ ev.event_type) ev ∈ handleStdoutLine env (some ev) := by
  simp [handleStdoutLine, handleDecodedEvent]

/-- C7: handling a schedule_warning event with the notification window
present and a monitor resolved positions the window at
x = width - 280 - 20 and y = height - 320 - 20, then shows it and
raises it always-on-top, for every screen size in the i32 range. -/
theorem schedule_warning_position (env : Env) (data : Option Json) (w h : Nat)
    (hwin : "notification" ∈ env.windows)
    (hmon : env.monitorSize = some (w, h))
    (hw : w < 2 ^ 31) (hh : h < 2 ^ 31) :
    handleStdoutLine env (some { event_type := "schedule_warning", data := data }) =
      [Effect.log "[Aura] Received stdout",
       Effect.log "[Aura] Emitting event: sidecar-schedule_warning",
       Effect.log "[Aura] Schedule warning! Showing notification window...",
       Effect.setPosition "notification" ((w : Int) - 280 - 20) ((h : Int) - 320 - 20),
       Effect.showWindow "notification",
       Effect.setAlwaysOnTop "notification" true,
       Effect.scheduleTask 800 (DelayedTask.warningPush data),
       Effect.emitAll "sidecar-schedule_warning"
         { event_type := "schedule_warning", data := data }] := by
  simp [handleStdoutLine, handleDecodedEvent, specialRouting, routeScheduleWarning,
    hwin, hmon, notifX_eq w hw, notifY_eq h hh]

/-- Witness for C7 at a 1920x1080 monitor. -/
theorem schedule_warning_position_witness :
    handleStdoutLine envEx (some { event_type := "schedule_warning", data := none }) =
      [Effect.log "[Aura] Received stdout",
       Effect.log "[Aura] Emitting event: sidecar-schedule_warning",
       Effect.log "[Aura] Schedule warning! Showing notification window...",
       Effect.setPosition "notification" ((1920 : Int) - 280 - 20) ((1080 : Int) - 320 - 20),
       Effect.showWindow "notification",
       Effect.setAlwaysOnTop "notification" true,
       Effect.scheduleTask 800 (DelayedTask.warningPush none),
       Effect.emitAll "sidecar-schedule_warning"
         { event_type := "schedule_warning", data := none }] :=
  schedule_warning_position envEx none 1920 1080 (by decide) rfl (by decide) (by decide)

/-- C8: optional fields are serialized explicitly: a missing pause
minutes value becomes a JSON null, a missing schedule-rule title
becomes the empty string, and every field of both fixed command shapes
is present in the constructed object. -/
theorem optional_fields_explicit (m : Int) (t a : String) (ds : List String) :
    jsonLookup (pause_reminders_cmd none) "cmd" = some (Json.str "pause") ∧
    jsonLookup (pause_reminders_cmd none) "minutes" = some Json.null ∧
    jsonLookup (pause_reminders_cmd (some m)) "minutes" = some (Json.num m) ∧
    jsonLookup (add_schedule_rule_cmd t a ds none) "cmd" =
      some (Json.str "add_schedule_rule") ∧
    jsonLookup (add_schedule_rule_cmd t a ds none) "time" = some (Json.str t) ∧
    jsonLookup (add_schedule_rule_cmd t a ds none) "action" = some (Json.str a) ∧
    jsonLookup (add_schedule_rule_cmd t a ds none) "days" =
      some (Json.arr (ds.map Json.str)) ∧
    jsonLookup (add_schedule_rule_cmd t a ds none) "title" = some (Json.str "") :=
  ⟨rfl, rfl, rfl, rfl, rfl, rfl, rfl, rfl⟩

/-- C9: the three break commands hide the overlay before submitting,
and the overlay is hidden even when the submission fails because no
child handle is present. -/
theorem break_commands_hide_overlay_first (m : AppModel) (minutes : Int)
    (hov : "overlay" ∈ m.windows) :
    (complete_break m).trace = [Effect.hideWindow "overlay"] ∧
    (snooze_break m minutes).trace = [Effect.hideWindow "overlay"] ∧
    (skip_break m).trace = [Effect.hideWindow "overlay"] ∧
    (m.sidecar.child = none →
      (complete_break m).result = Except.error "Sidecar not running" ∧
      (snooze_break m minutes).result = Except.error "Sidecar not running" ∧
      (skip_break m).result = Except.error "Sidecar not running") := by
  refine ⟨?_, ?_, ?_, fun h => ⟨?_, ?_, ?_⟩⟩ <;>
    simp [complete_break, snooze_break, skip_break, hideOverlayFirst, send_to_sidecar, hov, *]

/-- Witness for C9: overlay present, sidecar not running. -/
theorem break_commands_hide_overlay_first_witness :
    (complete_break mEx).trace = [Effect.hideWindow "overlay"] ∧
    (snooze_break mEx 5).trace = [Effect.hideWindow "overlay"] ∧
    (skip_break mEx).trace = [Effect.hideWindow "overlay"] ∧
    (complete_break mEx).result = Except.error "Sidecar not running" ∧
    (snooze_break mEx 5).result = Except.error "Sidecar not running" ∧
    (skip_break mEx).result = Except.error "Sidecar not running" := by
  obtain ⟨h1, h2, h3, h4⟩ := break_commands_hide_overlay_first mEx 5 (by decide)
  obtain ⟨h5, h6, h7⟩ := h4 rfl
  exact ⟨h1, h2, h3, h5, h6, h7⟩

/-- C10: a break_due event with no data stages nothing and its delayed
push emits nothing at fire time, while the overlay is still shown and
focused and the generic forwarded event is still emitted. -/
theorem break_due_without_data (env fireEnv : Env) (hov : "overlay" ∈ env.windows) :
    handleStdoutLine env (some { event_type := "break_due", data := none }) =
      [Effect.log "[Aura] Received stdout",
       Effect.log "[Aura] Emitting event: sidecar-break_due",
       Effect.log "[Aura] Break due! Showing overlay window...",
       Effect.showWindow "overlay",
       Effect.focusWindow "overlay",
       Effect.scheduleTask 300 (DelayedTask.breakPush none),
       Effect.emitAll "sidecar-break_due" { event_type := "break_due", data := none }] ∧
    runTask fireEnv (DelayedTask.breakPush none) = [] := by
  constructor
  · simp [handleStdoutLine, handleDecodedEvent, specialRouting, routeBreakDue, hov]
  · by_cases h : "overlay" ∈ fireEnv.windows <;> simp [runTask, h]

/-- Witness for C10. -/
theorem break_due_without_data_witness :
    handleStdoutLine envEx (some { event_type := "break_due", data := none }) =
      [Effect.log "[Aura] Received stdout",
       Effect.log "[Aura] Emitting event: sidecar-break_due",
       Effect.log "[Aura] Break due! Showing overlay window...",
       Effect.showWindow "overlay",
       Effect.focusWindow "overlay",
       Effect.scheduleTask 300 (DelayedTask.breakPush none),
       Effect.emitAll "sidecar-break_due" { event_type := "break_due", data := none }] ∧
    runTask envEx (DelayedTask.breakPush none) = [] :=
  break_due_without_data envEx envEx (by decide)
